import Mathlib

/-
Formal model of the datai backend core: the SQL validators, the SQL
generation/validation/execution/repair pipeline, the supervisor router,
the credential vault and the schema cache, shallowly embedded from
src/backend/app. Third-party library behaviour (the LLM service, the
database driver, sqlparse, the JSON parser) is abstracted as explicit
oracle parameters; everything else is translated directly from the
Python source.
-/

set_option linter.unusedVariables false

namespace Datai

/-- Single-quote character (ASCII 39), used when building the injection
pattern constants of `validators.py` without quote literals. -/
def sq : Char := Char.ofNat 39

/-- Python whitespace characters recognised by `str.strip` and by the
regex class backslash-s (space, tab, newline, carriage return, vertical
tab, form feed). -/
def isSpaceChar (c : Char) : Bool :=
  c = ' ' || c = '\t' || c = '\n' || c = '\r' || c = Char.ofNat 11 || c = Char.ofNat 12

/-- Word character of the regex word-boundary: letters, digits and
underscore (the ASCII fragment of backslash-w). -/
def isWordChar (c : Char) : Bool :=
  c.isAlpha || c.isDigit || c = '_'

/-- ASCII lowercase of one character, mirroring Python lowering on the
ASCII inputs the validators deal with. -/
def lowChar (c : Char) : Char := c.toLower

/-- Uppercase a character list, mirroring Python `str.upper` on ASCII. -/
def upperL (s : List Char) : List Char := s.map Char.toUpper

/-- Lowercase a character list, mirroring Python `str.lower` on ASCII. -/
def lowerL (s : List Char) : List Char := s.map Char.toLower

/-- Python `str.strip()`: drop whitespace from both ends. -/
def pyStrip (s : List Char) : List Char :=
  ((s.dropWhile isSpaceChar).reverse.dropWhile isSpaceChar).reverse

/-- Python `str.rstrip(";")`: drop trailing semicolons. -/
def rstripSemi (s : List Char) : List Char :=
  (s.reverse.dropWhile (fun c => c = ';')).reverse

/-- Does `pat` occur at the head of `s`? -/
def beginsWith : List Char → List Char → Bool
  | [], _ => true
  | _ :: _, [] => false
  | k :: ks, c :: cs => k = c && beginsWith ks cs

/-- Does `pat` occur at the head of `s`, compared case-insensitively? -/
def beginsWithCI : List Char → List Char → Bool
  | [], _ => true
  | _ :: _, [] => false
  | k :: ks, c :: cs => lowChar k = lowChar c && beginsWithCI ks cs

/-- Plain substring search (Python `pat in s`). -/
def containsSub (pat : List Char) : List Char → Bool
  | [] => beginsWith pat []
  | c :: cs => beginsWith pat (c :: cs) || containsSub pat cs

/-- Does `kw` occur at the head of `s` with a word boundary right after
it (next character absent or not a word character)? -/
def headWordMatch : List Char → List Char → Bool
  | [], [] => true
  | [], c :: _ => !isWordChar c
  | _ :: _, [] => false
  | k :: ks, c :: cs => k = c && headWordMatch ks cs

/-- Scan for a word-bounded occurrence of `kw`; `okLeft` records whether
the character just before the current position was absent or not a word
character (the left word boundary). -/
def wholeWordFrom (kw : List Char) : Bool → List Char → Bool
  | okLeft, [] => okLeft && headWordMatch kw []
  | okLeft, c :: cs =>
      (okLeft && headWordMatch kw (c :: cs)) || wholeWordFrom kw (!isWordChar c) cs

/-- Occurrence of `kw` as a whole word in `s`: the model of
`re.search(r"\b" + kw + r"\b", s)` for a keyword made of word
characters. -/
def containsWholeWord (kw s : List Char) : Bool :=
  wholeWordFrom kw true s

/-- Atom of the small regex fragment used by the validator patterns:
a literal character (matched case-insensitively, as all the patterns are
compiled with `re.IGNORECASE`), backslash-s-star, or backslash-s-plus. -/
inductive PatAtom
  | lit (c : Char)
  | ws0
  | ws1
deriving DecidableEq

/-- Match a pattern at the head of the input. In every validator pattern
a whitespace atom is followed by a non-whitespace literal, so consuming
whitespace greedily is exactly the regex semantics. -/
def matchPat : List PatAtom → List Char → Bool
  | [], _ => true
  | .lit _ :: _, [] => false
  | .lit k :: ps, c :: cs => lowChar c = lowChar k && matchPat ps cs
  | .ws0 :: ps, s => matchPat ps (s.dropWhile isSpaceChar)
  | .ws1 :: _, [] => false
  | .ws1 :: ps, c :: cs => isSpaceChar c && matchPat ps (cs.dropWhile isSpaceChar)

/-- Regex search: does the pattern match at some position of `s`? -/
def searchPat (ps : List PatAtom) : List Char → Bool
  | [] => matchPat ps []
  | c :: cs => matchPat ps (c :: cs) || searchPat ps cs

/-- Literal atoms of a string. -/
def litsOf (s : String) : List PatAtom := s.toList.map PatAtom.lit

end Datai

namespace Datai.SQLValidator

/-- Denylist of `app/utils/validators.py` (`DANGEROUS_KEYWORDS`). The
Python source stores them in a set; iteration order is unspecified
there, so only membership is meaningful. -/
def DANGEROUS_KEYWORDS : List String :=
  ["DROP", "DELETE", "TRUNCATE", "ALTER", "CREATE",
   "INSERT", "UPDATE", "GRANT", "REVOKE", "EXEC",
   "EXECUTE", "CALL", "MERGE", "REPLACE"]

/-- Leading keywords accepted by `is_select_only` (`ALLOWED_DML`). -/
def ALLOWED_DML : List String := ["SELECT", "WITH"]

/-- Model of `contains_dangerous_keywords`: uppercase the SQL and search
each denylisted keyword as a whole word. -/
def contains_dangerous_keywords (sql : String) : Bool × List String :=
  let up := Datai.upperL sql.toList
  let found := DANGEROUS_KEYWORDS.filter (fun kw => Datai.containsWholeWord kw.toList up)
  (!found.isEmpty, found)

/-- One heuristic injection pattern of `check_sql_injection_patterns`:
its matcher and the regex source text used in the reported reason. -/
structure InjPat where
  atoms : List Datai.PatAtom
  src : String

/-- Pattern `'\s*OR\s+'1'\s*=\s*'1`. -/
def injPat1 : InjPat :=
  { atoms := [.lit Datai.sq, .ws0] ++ Datai.litsOf "OR" ++
      [.ws1, .lit Datai.sq, .lit '1', .lit Datai.sq, .ws0, .lit '=', .ws0,
       .lit Datai.sq, .lit '1'],
    src := String.mk ([Datai.sq] ++ "\\s*OR\\s+".toList ++ [Datai.sq, '1', Datai.sq] ++
      "\\s*=\\s*".toList ++ [Datai.sq, '1']) }

/-- Pattern `'\s*OR\s+1\s*=\s*1`. -/
def injPat2 : InjPat :=
  { atoms := [.lit Datai.sq, .ws0] ++ Datai.litsOf "OR" ++
      [.ws1, .lit '1', .ws0, .lit '=', .ws0, .lit '1'],
    src := String.mk ([Datai.sq] ++ "\\s*OR\\s+1\\s*=\\s*1".toList) }

/-- Pattern `admin'\s*--`. -/
def injPat3 : InjPat :=
  { atoms := Datai.litsOf "admin" ++ [.lit Datai.sq, .ws0, .lit '-', .lit '-'],
    src := String.mk ("admin".toList ++ [Datai.sq] ++ "\\s*--".toList) }

/-- Pattern `'\s*;\s*DROP\s+TABLE`. -/
def injPat4 : InjPat :=
  { atoms := [.lit Datai.sq, .ws0, .lit ';', .ws0] ++ Datai.litsOf "DROP" ++
      [.ws1] ++ Datai.litsOf "TABLE",
    src := String.mk ([Datai.sq] ++ "\\s*;\\s*DROP\\s+TABLE".toList) }

/-- Pattern `'\s*;\s*DELETE\s+FROM`. -/
def injPat5 : InjPat :=
  { atoms := [.lit Datai.sq, .ws0, .lit ';', .ws0] ++ Datai.litsOf "DELETE" ++
      [.ws1] ++ Datai.litsOf "FROM",
    src := String.mk ([Datai.sq] ++ "\\s*;\\s*DELETE\\s+FROM".toList) }

/-- Pattern `EXEC\s*\(`. -/
def injPat6 : InjPat :=
  { atoms := Datai.litsOf "EXEC" ++ [.ws0, .lit '('], src := "EXEC\\s*\\(" }

/-- Pattern `EXECUTE\s*\(`. -/
def injPat7 : InjPat :=
  { atoms := Datai.litsOf "EXECUTE" ++ [.ws0, .lit '('], src := "EXECUTE\\s*\\(" }

/-- The `injection_patterns` list of `check_sql_injection_patterns`, in
source order. -/
def injection_patterns : List InjPat :=
  [injPat1, injPat2, injPat3, injPat4, injPat5, injPat6, injPat7]

/-- Model of `check_sql_injection_patterns`: comment markers, then a
stray semicolon after stripping trailing ones, then the heuristic
pattern list. (The UNION branch of the source is a no-op `pass`.) All
patterns are compiled with `re.IGNORECASE`. -/
def check_sql_injection_patterns (sql : String) : Bool × Option String :=
  let l := sql.toList
  if Datai.containsSub "--".toList l || Datai.containsSub "/*".toList l ||
      Datai.containsSub "*/".toList l then
    (true, some "SQL comments detected (potential injection)")
  else if Datai.containsSub [';'] (Datai.rstripSemi (Datai.pyStrip l)) then
    (true, some "Multiple statements detected (potential injection)")
  else
    match injection_patterns.find? (fun p => Datai.searchPat p.atoms l) with
    | some p => (true, some ("SQL injection pattern detected: " ++ p.src))
    | none => (false, none)

/-- Behaviour of the third-party `sqlparse` library as consumed by
`validators.py`: whether the parse yields more than one non-UNKNOWN
statement (`has_multiple_statements`), whether every statement leads
with an accepted token (`is_select_only`), and whether the final
`sqlparse.parse` call yields a non-empty result without raising. The
library is not part of this repository, so it is kept abstract. -/
structure SqlparseModel where
  hasMultipleStatements : String → Bool
  isSelectOnly : String → Bool
  parseOk : String → Bool

/-- Model of `SQLValidator.validate_sql`: the rule sequence of the
source, each failure short-circuiting with its message. -/
def validate_sql (o : SqlparseModel) (sql : String) : Bool × Option String :=
  if Datai.pyStrip sql.toList = [] then
    (false, some "Empty SQL query")
  else
    let inj := check_sql_injection_patterns sql
    if inj.1 then (false, inj.2)
    else if o.hasMultipleStatements sql then
      (false, some "Multiple SQL statements not allowed")
    else
      let dang := contains_dangerous_keywords sql
      if dang.1 then
        (false, some ("Dangerous SQL keywords detected: " ++ String.intercalate ", " dang.2))
      else if !o.isSelectOnly sql then
        (false, some "Only SELECT queries are allowed")
      else if !o.parseOk sql then
        (false, some "Unable to parse SQL query")
      else
        (true, none)

/-- A sqlparse token as far as `is_select_only` inspects it: whether it
is whitespace, whether its ttype is the DML keyword type, whether the
grouping engine wrapped it into an `Identifier` instance, and its text. -/
structure SPToken where
  is_whitespace : Bool
  ttypeIsDML : Bool
  isIdentifierGroup : Bool
  value : String
deriving DecidableEq

/-- Body of the per-statement loop of `is_select_only`: find the first
non-whitespace token; a DML token must read SELECT or WITH, an
Identifier group is passed over (`continue`), anything else rejects. -/
def stmtLeadOk (stmt : List SPToken) : Bool :=
  match stmt.find? (fun t => !t.is_whitespace) with
  | none => false
  | some t =>
      if t.ttypeIsDML then ALLOWED_DML.contains t.value.toUpper
      else t.isIdentifierGroup

/-- Model of `is_select_only` over a pre-tokenized parse result: an
empty parse rejects, otherwise every statement must pass `stmtLeadOk`. -/
def is_select_only_tokens (stmts : List (List SPToken)) : Bool :=
  !stmts.isEmpty && stmts.all stmtLeadOk

end Datai.SQLValidator

namespace Datai.SqlTools

/-- Model of the regex `\b--\b` of `app/agents/tools/sql_tools.py`: the
dashes are non-word characters, so each boundary demands a word
character on the outside; the scan carries whether the previous
character was a word character. -/
def dashDashFrom : Bool → List Char → Bool
  | _, [] => false
  | prevW, c :: cs =>
      (prevW && c = '-' &&
        (match cs with
         | d :: e :: _ => d = '-' && Datai.isWordChar e
         | _ => false)) || dashDashFrom (Datai.isWordChar c) cs

/-- Head match for `xp_\w+` (case-insensitive): `x`, `p`, underscore,
then at least one word character. -/
def xpHead : List Char → Bool
  | a :: b :: u :: c :: _ =>
      Datai.lowChar a = 'x' && Datai.lowChar b = 'p' && u = '_' && Datai.isWordChar c
  | _ => false

/-- Model of the regex `\bxp_\w+\b`: a left word boundary followed by
`xpHead`; the trailing boundary holds automatically after the maximal
word run consumed by `\w+`. -/
def xpFrom : Bool → List Char → Bool
  | _, [] => false
  | okLeft, c :: cs => (okLeft && xpHead (c :: cs)) || xpFrom (!Datai.isWordChar c) cs

/-- Model of `re.match(r"^\s*SELECT\b", q, re.IGNORECASE)`. -/
def startsWithSelect (q : List Char) : Bool :=
  let r := q.dropWhile Datai.isSpaceChar
  Datai.beginsWithCI "SELECT".toList r &&
    (match r.drop 6 with
     | [] => true
     | c :: _ => !Datai.isWordChar c)

/-- Head match for `LIMIT\s+\d+` (case-insensitive). -/
def limitHead (s : List Char) : Bool :=
  Datai.beginsWithCI "LIMIT".toList s &&
    (match s.drop 5 with
     | c :: cs =>
         Datai.isSpaceChar c &&
           (match cs.dropWhile Datai.isSpaceChar with
            | d :: _ => d.isDigit
            | [] => false)
     | [] => false)

/-- Model of `re.search(r"\bLIMIT\s+\d+", q, re.IGNORECASE)`. -/
def limitFrom : Bool → List Char → Bool
  | okLeft, [] => okLeft && limitHead []
  | okLeft, c :: cs => (okLeft && limitHead (c :: cs)) || limitFrom (!Datai.isWordChar c) cs

/-- Result dictionary of `validate_query` in
`app/agents/tools/sql_tools.py`. -/
structure ValidationResult where
  is_valid : Bool
  issues : List String
  suggestions : List String
deriving DecidableEq

/-- The `dangerous_keywords` regex list of `validate_query`, paired as
matcher and regex source text (the source text is interpolated into the
issue message). -/
def toolDangerScan (q : List Char) : List (Bool × String) :=
  [(Datai.containsWholeWord "DROP".toList (Datai.upperL q), "\\bDROP\\b"),
   (Datai.containsWholeWord "DELETE".toList (Datai.upperL q), "\\bDELETE\\b"),
   (Datai.containsWholeWord "INSERT".toList (Datai.upperL q), "\\bINSERT\\b"),
   (Datai.containsWholeWord "UPDATE".toList (Datai.upperL q), "\\bUPDATE\\b"),
   (Datai.containsWholeWord "ALTER".toList (Datai.upperL q), "\\bALTER\\b"),
   (Datai.containsWholeWord "TRUNCATE".toList (Datai.upperL q), "\\bTRUNCATE\\b"),
   (Datai.containsWholeWord "CREATE".toList (Datai.upperL q), "\\bCREATE\\b"),
   (Datai.containsWholeWord "EXEC".toList (Datai.upperL q), "\\bEXEC\\b"),
   (Datai.containsWholeWord "EXECUTE".toList (Datai.upperL q), "\\bEXECUTE\\b"),
   (dashDashFrom false q, "\\b--\\b"),
   (Datai.containsSub "/*".toList q, "/\\*"),
   (Datai.containsSub "*/".toList q, "\\*/"),
   (xpFrom true q, "\\bxp_\\w+\\b")]

/-- Model of `validate_query` of `app/agents/tools/sql_tools.py`: the
regex denylist, the leading-SELECT test, the LIMIT suggestion, and the
parenthesis balance check, collected into issue and suggestion lists;
the query is valid when no issue was recorded. (The enclosing
`try/except` of the source cannot fire on this pure logic.) -/
def validate_query (query : String) : ValidationResult :=
  let q := query.toList
  let issues1 := (toolDangerScan q).filterMap
    (fun hit => if hit.1 then
        some ("Query contains potentially dangerous operation: " ++ hit.2)
      else none)
  let issues2 := issues1 ++
    (if !startsWithSelect q then ["Query must be a SELECT statement (read-only)"] else [])
  let suggestions :=
    if !limitFrom true q then
      ["Consider adding a LIMIT clause to prevent large result sets"]
    else []
  let issues3 := issues2 ++
    (if q.count '(' ≠ q.count ')' then ["Unbalanced parentheses in query"] else [])
  { is_valid := issues3.isEmpty, issues := issues3, suggestions := suggestions }

/-- Value in a driver result row. A datetime value carries the string
its `isoformat()` would produce; a bytes value carries the string its
utf-8 decode would produce. -/
inductive Val
  | intV (i : Int)
  | strV (s : String)
  | dtV (iso : String)
  | bytesV (decoded : String)
  | nullV
deriving DecidableEq

/-- Conversion applied per cell by the fetch loop of `execute_query`:
datetime-like values become their isoformat string, other values
(bytes included, in this variant) pass through. -/
def convVal : Val → Val
  | .dtV iso => .strV iso
  | v => v

/-- One `row_dict` of the fetch loop: the i-th value keyed by the i-th
column name. -/
def rowDict (cols : List String) (row : List Val) : List (String × Val) :=
  List.zip cols (row.map convVal)

/-- What the database driver hands back for a successful execution: the
ordered result columns, the raw rows, and the elapsed wall-clock time
(milli-units) measured around the execution. -/
structure DriverResult where
  cols : List String
  rows : List (List Val)
  elapsed : Nat
deriving DecidableEq

/-- The `metadata` dictionary of `execute_query`. -/
structure QueryMetadata where
  row_count : Nat
  column_count : Nat
  columns : List String
  execution_time : Nat
  query : String
deriving DecidableEq

/-- The result dictionary of `execute_query`. -/
structure QueryOutput where
  data : List (List (String × Val))
  metadata : QueryMetadata
deriving DecidableEq

/-- The fetch loop of `execute_query`: append the converted row, then
break as soon as the accumulated length has reached
`settings.SQL_ROW_LIMIT`. -/
def fetchRows (limit : Nat) (cols : List String) :
    List (List Val) → List (List (String × Val)) → List (List (String × Val))
  | [], acc => acc.reverse
  | r :: rs, acc =>
      let acc2 := rowDict cols r :: acc
      if limit ≤ acc2.length then acc2.reverse else fetchRows limit cols rs acc2

/-- Model of `execute_query` of `app/agents/tools/sql_tools.py`. The
connection lookup, engine creation and driver execution are abstracted
into the `driver` oracle, whose error case stands for any exception
raised there (connection not found, driver error, timeout). `limit`
stands for `settings.SQL_ROW_LIMIT`.

Modelled from the spec: the `SQL_ROW_LIMIT` settings field itself is
absent from `app/config.py` in the tree (a merge artifact); the spec
fixes the row cap default at 10,000, matching `MAX_QUERY_ROWS`. -/
def execute_query (limit : Nat) (driver : String → Except String DriverResult)
    (query : String) : Except String QueryOutput :=
  match driver query with
  | .error e => .error e
  | .ok dr =>
      let rows := fetchRows limit dr.cols dr.rows []
      .ok { data := rows,
            metadata := { row_count := rows.length, column_count := dr.cols.length,
                          columns := dr.cols, execution_time := dr.elapsed,
                          query := query } }

end Datai.SqlTools

namespace Datai.Pipeline

/-- Observable events of one pipeline run: a query produced by
`generate_sql_query`, a `validate_query` verdict, a query produced by
`fix_query`, and an execution attempt handed to `execute_query`. -/
inductive Ev
  | generated (q : String)
  | validated (q : String) (ok : Bool)
  | fixed (q : String)
  | executed (q : String)
deriving DecidableEq

/-- External collaborators of `SQLAgent.process`, and the two settings
it reads. `gen` and `fix` are the Language Service stubs, indexed by
global call number so a stub can answer differently per attempt;
`driver` is the database boundary of `execute_query`.

Modelled from the spec: `AGENT_MAX_RETRIES` (retry budget, default 2)
and `SQL_ROW_LIMIT` (row cap, default 10,000) are read by the agents
from `settings` but the fields are absent from `app/config.py` in the
tree (a merge artifact); the spec supplies their meaning and defaults. -/
structure Services where
  maxRetries : Nat
  rowLimit : Nat
  gen : Nat → String → String
  fix : Nat → String → String → String
  driver : String → Except String Datai.SqlTools.DriverResult

/-- The slice of `AgentState` that `SQLAgent.process` and
`sql_agent_node` read and write. -/
structure PState where
  user_query : String
  database_id : Option Nat
  intent : String
  sql_query : Option String
  query_results : Option (List (List (String × Datai.SqlTools.Val)))
  query_metadata : Option Datai.SqlTools.QueryMetadata
  error : Option String
  retry_count : Nat
  agent_used : Option String
deriving DecidableEq

/-- Python truthiness of an optional string (`state.get("sql_query")`
in a boolean position): present and non-empty. -/
def truthyStr : Option String → Bool
  | none => false
  | some s => s ≠ ""

/-- The dictionary returned by `SQLAgent.process`, together with the
event trace and the running Language Service call counters. -/
structure ProcRes where
  sql_query : Option String
  query_results : Option (List (List (String × Datai.SqlTools.Val)))
  query_metadata : Option Datai.SqlTools.QueryMetadata
  error : Option String
  trace : List Ev
  genCalls : Nat
  fixCalls : Nat
deriving DecidableEq

/-- Execution phase of `SQLAgent.process` (step 4 plus the enclosing
exception handler). On a driver failure the handler uses the retry
budget and the *previously stored* `state["sql_query"]`: it asks
`fix_query` for a repair of that stored query and hands the repair
straight to `execute_query`. The schema refetch inside the handler has
no observable effect here and the Language Service stubs are total, so
the handler is entered exactly on driver errors. -/
def execPhase (svc : Services) (st : PState) (sql : String) (tr : List Ev)
    (g f : Nat) : ProcRes :=
  match Datai.SqlTools.execute_query svc.rowLimit svc.driver sql with
  | .ok res =>
      { sql_query := some sql, query_results := some res.data,
        query_metadata := some res.metadata, error := none,
        trace := tr ++ [Ev.executed sql], genCalls := g, fixCalls := f }
  | .error e =>
      if st.retry_count < svc.maxRetries && truthyStr st.sql_query then
        let qf := svc.fix f (st.sql_query.getD "") e
        match Datai.SqlTools.execute_query svc.rowLimit svc.driver qf with
        | .ok res =>
            { sql_query := some qf, query_results := some res.data,
              query_metadata := some res.metadata, error := none,
              trace := tr ++ [Ev.executed sql, Ev.fixed qf, Ev.executed qf],
              genCalls := g, fixCalls := f + 1 }
        | .error _ =>
            { sql_query := st.sql_query, query_results := none, query_metadata := none,
              error := some ("Failed to execute SQL query: " ++ e),
              trace := tr ++ [Ev.executed sql, Ev.fixed qf, Ev.executed qf],
              genCalls := g, fixCalls := f + 1 }
      else
        { sql_query := st.sql_query, query_results := none, query_metadata := none,
          error := some ("Failed to execute SQL query: " ++ e),
          trace := tr ++ [Ev.executed sql], genCalls := g, fixCalls := f }

/-- Model of `SQLAgent.process` of `app/agents/sql_agent.py`: guard on
the database id, generate, validate, on a failed verdict repair and
re-validate within the in-call retry budget check, then execute through
`execPhase`. `g0`/`f0` are the Language Service call counters on
entry. -/
def process (svc : Services) (st : PState) (g0 f0 : Nat) : ProcRes :=
  match st.database_id with
  | none =>
      { sql_query := none, query_results := none, query_metadata := none,
        error := some "No database connection specified. Please connect a database first.",
        trace := [], genCalls := g0, fixCalls := f0 }
  | some _ =>
      let q0 := svc.gen g0 st.user_query
      let v0 := Datai.SqlTools.validate_query q0
      let tr0 := [Ev.generated q0, Ev.validated q0 v0.is_valid]
      if v0.is_valid then
        execPhase svc st q0 tr0 (g0 + 1) f0
      else
        let errMsg := "SQL query validation failed: " ++
          String.intercalate ", " v0.issues
        if st.retry_count < svc.maxRetries then
          let q1 := svc.fix f0 q0 errMsg
          let v1 := Datai.SqlTools.validate_query q1
          let tr1 := tr0 ++ [Ev.fixed q1, Ev.validated q1 v1.is_valid]
          if v1.is_valid then
            execPhase svc st q1 tr1 (g0 + 1) (f0 + 1)
          else
            { sql_query := some q1, query_results := none, query_metadata := none,
              error := some errMsg, trace := tr1, genCalls := g0 + 1, fixCalls := f0 + 1 }
        else
          { sql_query := some q0, query_results := none, query_metadata := none,
            error := some errMsg, trace := tr0, genCalls := g0 + 1, fixCalls := f0 }

/-- Successor node chosen by `route_next` after the sql node. -/
inductive NextAgent
  | supervisor
  | sql
  | dashboard
deriving DecidableEq

/-- Output of one `sql_agent_node` step. -/
structure NodeOut where
  st : PState
  next : NextAgent
  trace : List Ev
  genCalls : Nat
  fixCalls : Nat

/-- Model of `sql_agent_node` of `app/agents/graph.py`: copy the
process result into the state; on an error increment `retry_count` and
re-enter the sql node while the budget allows and a stored query is
truthy, otherwise mark the run `sql_failed`; on success mark `sql` and
route onward by intent. -/
def sql_agent_node (svc : Services) (st : PState) (g f : Nat) : NodeOut :=
  let r := process svc st g f
  let st1 := { st with sql_query := r.sql_query, query_results := r.query_results,
                       query_metadata := r.query_metadata }
  match r.error with
  | some e =>
      let st2 := { st1 with error := some e, retry_count := st1.retry_count + 1 }
      if st2.retry_count < svc.maxRetries && truthyStr st2.sql_query then
        { st := st2, next := .sql, trace := r.trace,
          genCalls := r.genCalls, fixCalls := r.fixCalls }
      else
        { st := { st2 with agent_used := some "sql_failed" }, next := .supervisor,
          trace := r.trace, genCalls := r.genCalls, fixCalls := r.fixCalls }
  | none =>
      let nxt := if st1.intent = "sql_and_dashboard" then NextAgent.dashboard
                 else NextAgent.supervisor
      { st := { st1 with agent_used := some "sql" }, next := nxt,
        trace := r.trace, genCalls := r.genCalls, fixCalls := r.fixCalls }

/-- The sql retry sub-loop of the compiled graph: re-run the sql node
while it routes back to itself. Fuel bounds the iterations; `none`
marks exhausted fuel, and the termination theorems show the bound
`maxRetries` of actual iterations. -/
def runSqlLoop (svc : Services) :
    Nat → PState → Nat → Nat → List Ev → Option (PState × List Ev × Nat × Nat)
  | 0, _, _, _, _ => none
  | fuel + 1, st, g, f, tr =>
      let r := sql_agent_node svc st g f
      if r.next = .sql then runSqlLoop svc fuel r.st r.genCalls r.fixCalls (tr ++ r.trace)
      else some (r.st, tr ++ r.trace, r.genCalls, r.fixCalls)

/-- Scan a trace, carrying the most recent validation event, and check
that every execution attempt is of the exact query whose most recent
validation verdict passed. -/
def execGuardedB : Option (String × Bool) → List Ev → Bool
  | _, [] => true
  | _, .validated q ok :: tl => execGuardedB (some (q, ok)) tl
  | lastV, .executed q :: tl =>
      decide (lastV = some (q, true)) && execGuardedB lastV tl
  | lastV, _ :: tl => execGuardedB lastV tl

/-- Guarantee claimed in the spec for a trace: execution only ever
proceeds on the most recently validated, passing query. -/
def execGuarded (tr : List Ev) : Bool :=
  execGuardedB none tr

end Datai.Pipeline

namespace Datai.AgentSqlTools

/-- Scanner for `re.sub(r"--.*$", "", q, flags=re.MULTILINE)` in
`SQLTools._is_safe_sql` of `app/agents/sql_tools.py`: once inside a
line comment everything up to the newline is dropped; the newline
itself is kept, since `.` does not match it. -/
def stripLineAux : Bool → List Char → List Char
  | _, [] => []
  | true, c :: rest =>
      if c = '\n' then c :: stripLineAux false rest else stripLineAux true rest
  | false, '-' :: '-' :: rest => stripLineAux true rest
  | false, c :: rest => c :: stripLineAux false rest

/-- Model of the line-comment removal pass. -/
def stripLineComments (l : List Char) : List Char := stripLineAux false l

/-- Scanner for `re.sub(r"/\*.*?\*/", "", q, flags=re.DOTALL)`: a `/*`
opener with a later closer enters comment mode, which swallows
everything through the first `*/`; an opener with no later closer
cannot be part of any match and is emitted verbatim (comment mode is
only entered with a closer ahead, so its end-of-input case is
unreachable). -/
def stripBlockAux : Bool → List Char → List Char
  | _, [] => []
  | false, '/' :: '*' :: rest =>
      if Datai.containsSub "*/".toList rest then stripBlockAux true rest
      else '/' :: '*' :: rest
  | false, c :: rest => c :: stripBlockAux false rest
  | true, '*' :: '/' :: rest => stripBlockAux false rest
  | true, _ :: rest => stripBlockAux true rest

/-- Model of the block-comment removal pass. -/
def stripBlockComments (l : List Char) : List Char := stripBlockAux false l

/-- The `dangerous_keywords` list of `SQLTools._is_safe_sql` (note:
shorter than the validator denylists, and searched as plain
substrings). -/
def SAFE_SQL_KEYWORDS : List String :=
  ["DROP", "DELETE", "INSERT", "UPDATE", "ALTER",
   "CREATE", "TRUNCATE", "GRANT", "REVOKE", "EXEC",
   "EXECUTE", "CALL"]

/-- Model of `SQLTools._is_safe_sql`: strip line and block comments,
strip and uppercase, require a SELECT or WITH head, and reject on any
denylisted substring. -/
def is_safe_sql (sql_query : String) : Bool :=
  let clean := stripBlockComments (stripLineComments sql_query.toList)
  let qc := Datai.upperL (Datai.pyStrip clean)
  (Datai.beginsWith "SELECT".toList qc || Datai.beginsWith "WITH".toList qc) &&
    SAFE_SQL_KEYWORDS.all (fun kw => !Datai.containsSub kw.toList qc)

/-- Conversion applied per cell by `execute_sql_query`: datetime-like
values become their isoformat string and bytes are utf-8 decoded. -/
def convValB : Datai.SqlTools.Val → Datai.SqlTools.Val
  | .dtV iso => .strV iso
  | .bytesV d => .strV d
  | v => v

/-- The fetch loop of `execute_sql_query`: every driver row is
converted and kept, with no row cap. -/
def fetchAllRows (cols : List String) (rows : List (List Datai.SqlTools.Val)) :
    List (List (String × Datai.SqlTools.Val)) :=
  rows.map (fun r => List.zip cols (r.map convValB))

/-- The JSON payload returned by `execute_sql_query`. The two failure
payloads of the source omit some numeric fields; they are rendered here
as zeroes. The payload carries no column list. -/
structure ToolOut where
  success : Bool
  rows : List (List (String × Datai.SqlTools.Val))
  row_count : Nat
  execution_time_ms : Nat
  error : Option String
deriving DecidableEq

/-- Model of `SQLTools.execute_sql_query` of
`app/agents/sql_tools.py`: refuse unsafe queries, otherwise execute
through the driver and fetch every returned row. -/
def execute_sql_query (driver : String → Except String Datai.SqlTools.DriverResult)
    (sql_query : String) : ToolOut :=
  if !is_safe_sql sql_query then
    { success := false, rows := [], row_count := 0, execution_time_ms := 0,
      error := some "Query validation failed: Only SELECT queries are allowed" }
  else
    match driver sql_query with
    | .error e =>
        { success := false, rows := [], row_count := 0, execution_time_ms := 0,
          error := some e }
    | .ok dr =>
        let rows := fetchAllRows dr.cols dr.rows
        { success := true, rows := rows, row_count := rows.length,
          execution_time_ms := dr.elapsed, error := none }

end Datai.AgentSqlTools

namespace Datai.Vault

/-- Python `str.encode()` at the byte level: the character scalar
values of the string (an injective stand-in for utf-8 bytes). -/
def strEncode (s : String) : List Nat := s.data.map Char.toNat

/-- Python `bytes.decode()`: scalar values back to a string. -/
def strDecode (l : List Nat) : String := String.mk (l.map Char.ofNat)

/-- Contract of the third-party Fernet cipher as documented by the
`cryptography` package and consumed by `DBConnectionManager`:
decryption inverts encryption under the fixed process key, and a token
is url-safe base64 text, hence ASCII. The cipher itself is not code of
this repository, so it is kept abstract behind this contract. -/
structure FernetCipher where
  encB : List Nat → List Nat
  decB : List Nat → List Nat
  dec_enc : ∀ b, decB (encB b) = b
  token_ascii : ∀ b c, c ∈ encB b → c < 128

/-- Model of `DBConnectionManager.encrypt_password`:
`self._fernet.encrypt(password.encode()).decode()`. -/
def encrypt_password (F : FernetCipher) (password : String) : String :=
  strDecode (F.encB (strEncode password))

/-- Model of `DBConnectionManager.decrypt_password`:
`self._fernet.decrypt(encrypted_password.encode()).decode()`. -/
def decrypt_password (F : FernetCipher) (encrypted_password : String) : String :=
  strDecode (F.decB (strEncode encrypted_password))

/-- Scalar round trip for values below the ASCII bound. -/
theorem toNat_ofNat_small (n : Nat) (h : n < 128) : (Char.ofNat n).toNat = n := by
  have hv : n.isValidChar := Or.inl (by omega)
  rw [Char.ofNat, dif_pos hv]
  rfl

/-- Decoding then re-encoding an ASCII byte string is the identity. -/
theorem strEncode_strDecode (l : List Nat) (h : ∀ c ∈ l, c < 128) :
    strEncode (strDecode l) = l := by
  unfold strEncode strDecode
  induction l with
  | nil => simp
  | cons c t ih =>
      simp only [List.map_cons, List.map_map] at *
      have hc : (Char.ofNat c).toNat = c := toNat_ofNat_small c (h c (by simp))
      have ht := ih (fun x hx => h x (by simp [hx]))
      simp only [String.mk, List.map_cons, Function.comp] at *
      rw [hc, ht]

/-- Encoding then decoding a string is the identity. -/
theorem strDecode_strEncode (s : String) : strDecode (strEncode s) = s := by
  unfold strEncode strDecode
  cases s with
  | mk data =>
      simp only [List.map_map]
      congr 1
      induction data with
      | nil => simp
      | cons c t ih => simp [Char.ofNat_toNat, ih]

/-- A concrete cipher satisfying the Fernet contract, used to witness
the round-trip theorem: each byte is written in unary (that many ones)
followed by a zero terminator. -/
def unaryEnc (b : List Nat) : List Nat :=
  b.flatMap (fun x => List.replicate x 1 ++ [0])

/-- Unary decoder: count ones until a terminator, emit the count. -/
def unaryDecAux : Nat → List Nat → List Nat
  | _, [] => []
  | k, c :: rest => if c = 1 then unaryDecAux (k + 1) rest else k :: unaryDecAux 0 rest

/-- Top-level unary decoder. -/
def unaryDec (l : List Nat) : List Nat := unaryDecAux 0 l

/-- Decoding one unary block accumulates its count. -/
theorem unaryDecAux_block (x : Nat) :
    ∀ (k : Nat) (rest : List Nat),
      unaryDecAux k (List.replicate x 1 ++ 0 :: rest) = (k + x) :: unaryDecAux 0 rest := by
  induction x with
  | zero => intro k rest; simp [unaryDecAux]
  | succ n ih =>
      intro k rest
      rw [List.replicate_succ, List.cons_append]
      rw [show unaryDecAux k (1 :: (List.replicate n 1 ++ 0 :: rest)) =
            unaryDecAux (k + 1) (List.replicate n 1 ++ 0 :: rest) by simp [unaryDecAux]]
      rw [ih]
      congr 1
      omega

/-- The unary cipher round-trips. -/
theorem unaryDec_unaryEnc (b : List Nat) : unaryDec (unaryEnc b) = b := by
  induction b with
  | nil => rfl
  | cons x t ih =>
      unfold unaryEnc unaryDec at *
      simp only [List.flatMap_cons, List.append_assoc, List.singleton_append]
      rw [unaryDecAux_block]
      simpa using ih

/-- Unary tokens only hold zeroes and ones, well below the ASCII
bound. -/
theorem unaryEnc_ascii (b : List Nat) : ∀ c ∈ unaryEnc b, c < 128 := by
  intro c hc
  unfold unaryEnc at hc
  simp only [List.mem_flatMap, List.mem_append, List.mem_replicate, List.mem_singleton] at hc
  obtain ⟨x, _, h⟩ := hc
  rcases h with h1 | h0
  · omega
  · omega

/-- The unary witness cipher. -/
def unaryFernet : FernetCipher :=
  { encB := unaryEnc, decB := unaryDec,
    dec_enc := unaryDec_unaryEnc, token_ascii := unaryEnc_ascii }

end Datai.Vault

namespace Datai.ConnMgr

/-- A `DBConnection` row as the core reads it (the `schema` column is
named `schemaSpace` here). -/
structure DBConfig where
  id : Nat
  db_type : String
  host : String
  port : Nat
  database_name : String
  username : String
  encrypted_password : String
  schemaSpace : Option String
deriving DecidableEq

/-- A credential event: one call of `decrypt_password`, tagged with the
function that issued it. -/
structure CredEvent where
  site : String
deriving DecidableEq

/-- The single decryption site of the source tree. -/
def buildSite : String := "DBConnectionManager.build_connection_url"

/-- Model of `DBConnectionManager.build_connection_url`: decrypt the
stored password, auto-detect AWS RDS hosts, and assemble the dialect
URL. The decryption is recorded as a credential event. -/
def build_connection_url (F : Datai.Vault.FernetCipher) (cfg : DBConfig)
    (use_ssl : Bool) : Except String String × List CredEvent :=
  let password := Datai.Vault.decrypt_password F cfg.encrypted_password
  let is_aws_rds := Datai.containsSub "rds.amazonaws.com".toList
    (Datai.lowerL cfg.host.toList)
  let ev := [CredEvent.mk buildSite]
  if cfg.db_type = "postgresql" then
    (.ok ("postgresql://" ++ cfg.username ++ ":" ++ password ++ "@" ++ cfg.host ++
      ":" ++ toString cfg.port ++ "/" ++ cfg.database_name ++
      (if is_aws_rds || use_ssl then "?sslmode=require" else "")), ev)
  else if cfg.db_type = "mysql" then
    (.ok ("mysql+pymysql://" ++ cfg.username ++ ":" ++ password ++ "@" ++ cfg.host ++
      ":" ++ toString cfg.port ++ "/" ++ cfg.database_name ++
      (if is_aws_rds || use_ssl then "?ssl=true" else "")), ev)
  else if cfg.db_type = "sqlite" then
    (.ok ("sqlite:///" ++ cfg.database_name), ev)
  else
    (.error ("Unsupported database type: " ++ cfg.db_type), ev)

/-- Model of `DBConnectionManager.get_engine` as far as credentials are
concerned: a pooled engine cached under `(id, read_only)` is returned
with no URL build; otherwise the URL is built (with `use_ssl=True`) and
the engine cached. `engineCached` says whether the pool already holds
the engine. -/
def get_engine_events (F : Datai.Vault.FernetCipher) (cfg : DBConfig)
    (engineCached : Bool) : List CredEvent :=
  if engineCached then [] else (build_connection_url F cfg true).2

/-- Modelled from the spec: `DBConnection.get_connection_string`, called
by `app/agents/tools/sql_tools.py`, is absent from the tree (its model
class in `app/models/db_connection.py` no longer defines it). Per §2
and §4.2 of the spec, connection strings are built, with vault
decryption, by the Connection Manager, so the model delegates there. -/
def get_connection_string (F : Datai.Vault.FernetCipher) (cfg : DBConfig) :
    Except String String × List CredEvent :=
  build_connection_url F cfg false

/-- A column of the introspected schema (`str(type)` and the optional
stringified default already applied by the inspector boundary). -/
structure ColumnInfo where
  name : String
  typeStr : String
  nullable : Bool
  defaultStr : Option String
deriving DecidableEq

/-- A foreign-key edge of the introspected schema. -/
structure FKInfo where
  columns : List String
  referenced_table : Option String
  referenced_columns : List String
deriving DecidableEq

/-- A table of the introspected schema, in the shape
`SchemaService._extract_table_info` produces (the inspector boundary is
abstracted as data already carrying these fields). -/
structure TableInfo where
  name : String
  columns : List ColumnInfo
  primary_keys : List String
  foreign_keys : List FKInfo
deriving DecidableEq

/-- The `SchemaSnapshot` dictionary built by
`SchemaService.extract_schema`. -/
structure SchemaInfo where
  database_name : String
  database_type : String
  tables : List TableInfo
deriving DecidableEq

/-- Model of `SchemaService.extract_schema`: obtain a read-only engine
(decrypting inside the Connection Manager on a pool miss), run the
inspector (the `intro` oracle), and assemble the snapshot from the
configuration name and type plus the introspected tables only. -/
def extract_schema (F : Datai.Vault.FernetCipher) (cfg : DBConfig)
    (engineCached : Bool) (intro : List TableInfo) : SchemaInfo × List CredEvent :=
  ({ database_name := cfg.database_name, database_type := cfg.db_type,
     tables := intro }, get_engine_events F cfg engineCached)

end Datai.ConnMgr

namespace Datai.Redis

/-- Dictionary update (`self.schema_cache[key] = value`). -/
def setKey {V : Type} (k : Nat) (v : V) (m : List (Nat × V)) : List (Nat × V) :=
  (k, v) :: m.filter (fun p => p.1 ≠ k)

/-- Dictionary lookup (`self.schema_cache.get(key)`). -/
def getKey {V : Type} (k : Nat) (m : List (Nat × V)) : Option V :=
  (m.find? (fun p => p.1 = k)).map Prod.snd

/-- In-memory state of `RedisService` (`app/services/redis_service.py`):
the schema cache keyed by connection id, the session state store and the
conversation store (the latter two with opaque string payloads). -/
structure RedisState (V : Type) where
  schema_cache : List (Nat × V)
  state_store : List (String × String)
  conversations : List (String × List String)
deriving DecidableEq

/-- Model of `RedisService.cache_schema`. The `ttl_minutes` argument is
accepted and ignored, exactly as in the source (`Ignored (no TTL in
memory)`). -/
def cache_schema {V : Type} (st : RedisState V) (db_connection_id : Nat)
    (schema : V) (ttl_minutes : Nat) : RedisState V × Bool :=
  ({ st with schema_cache := setKey db_connection_id schema st.schema_cache }, true)

/-- Model of `RedisService.get_cached_schema`. -/
def get_cached_schema {V : Type} (st : RedisState V) (db_connection_id : Nat) :
    Option V :=
  getKey db_connection_id st.schema_cache

/-- Model of `RedisService.set_state`. -/
def set_state {V : Type} (st : RedisState V) (session_id : String) (v : String) :
    RedisState V × Bool :=
  ({ st with state_store := (session_id, v) ::
      st.state_store.filter (fun p => p.1 ≠ session_id) }, true)

/-- Model of `RedisService.delete_state`. -/
def delete_state {V : Type} (st : RedisState V) (session_id : String) :
    RedisState V × Bool :=
  ({ st with state_store := st.state_store.filter (fun p => p.1 ≠ session_id) }, true)

/-- Model of `RedisService.add_conversation_message` (the message with
its metadata is opaque here). -/
def add_conversation_message {V : Type} (st : RedisState V) (session_id : String)
    (msg : String) : RedisState V × Bool :=
  let prev := ((st.conversations.find? (fun p => p.1 = session_id)).map Prod.snd).getD []
  ({ st with conversations := (session_id, prev ++ [msg]) ::
      st.conversations.filter (fun p => p.1 ≠ session_id) }, true)

end Datai.Redis

namespace Datai.SchemaService

/-- Model of `SchemaService.get_or_load_schema`: return the cached
snapshot on a hit (the snapshot dictionary always carries its three
keys, so Python truthiness coincides with presence); on a miss run
`extract_schema`, cache it with the 60-minute ttl argument, and return
it. The third component counts live introspection round-trips and the
fourth collects credential events. -/
def get_or_load_schema (F : Datai.Vault.FernetCipher) (cfg : Datai.ConnMgr.DBConfig)
    (engineCached : Bool) (intro : List Datai.ConnMgr.TableInfo)
    (rst : Datai.Redis.RedisState Datai.ConnMgr.SchemaInfo) :
    Datai.ConnMgr.SchemaInfo × Datai.Redis.RedisState Datai.ConnMgr.SchemaInfo ×
      Nat × List Datai.ConnMgr.CredEvent :=
  match Datai.Redis.get_cached_schema rst cfg.id with
  | some cached => (cached, rst, 0, [])
  | none =>
      let ex := Datai.ConnMgr.extract_schema F cfg engineCached intro
      let c := Datai.Redis.cache_schema rst cfg.id ex.1 60
      (ex.1, c.1, 1, ex.2)

/-- Core operations that touch the shared `RedisService` state, for the
cache-persistence invariant. -/
inductive CoreOp
  | setState (session_id : String) (v : String)
  | deleteState (session_id : String)
  | addMessage (session_id : String) (msg : String)
  | getOrLoad (F : Datai.Vault.FernetCipher) (cfg : Datai.ConnMgr.DBConfig)
      (engineCached : Bool) (intro : List Datai.ConnMgr.TableInfo)

/-- State effect of one core operation (read-only operations have
none). -/
def applyOp (op : CoreOp) (rst : Datai.Redis.RedisState Datai.ConnMgr.SchemaInfo) :
    Datai.Redis.RedisState Datai.ConnMgr.SchemaInfo :=
  match op with
  | .setState sid v => (Datai.Redis.set_state rst sid v).1
  | .deleteState sid => (Datai.Redis.delete_state rst sid).1
  | .addMessage sid m => (Datai.Redis.add_conversation_message rst sid m).1
  | .getOrLoad F cfg ec intro => (get_or_load_schema F cfg ec intro rst).2.1

end Datai.SchemaService

namespace Datai.SqlTools

/-- A column of the tools-side schema dictionary. -/
structure AgentColumn where
  name : String
  typeStr : String
  nullable : Bool
deriving DecidableEq

/-- A table of the tools-side schema dictionary (no foreign keys in
this variant). -/
structure AgentTable where
  name : String
  columns : List AgentColumn
  primary_keys : List String
deriving DecidableEq

/-- The schema dictionary built by `get_database_schema` of
`app/agents/tools/sql_tools.py`. -/
structure AgentSchema where
  tables : List AgentTable
  database_type : String
deriving DecidableEq

/-- Model of `get_database_schema` of `app/agents/tools/sql_tools.py`:
on a cache hit return the cached schema with no database contact; on a
miss look up the connection row, obtain the decrypted connection string
through the modelled `get_connection_string`, introspect (the `intro`
oracle), assemble the schema from the row's type plus the introspected
tables, and cache it with `ttl_minutes=60`. The third component counts
introspection round-trips, the fourth collects credential events. -/
def get_database_schema (F : Datai.Vault.FernetCipher) (cfg : Datai.ConnMgr.DBConfig)
    (intro : List AgentTable) (rst : Datai.Redis.RedisState AgentSchema) :
    AgentSchema × Datai.Redis.RedisState AgentSchema × Nat ×
      List Datai.ConnMgr.CredEvent :=
  match Datai.Redis.get_cached_schema rst cfg.id with
  | some cached => (cached, rst, 0, [])
  | none =>
      let cs := Datai.ConnMgr.get_connection_string F cfg
      let schema : AgentSchema := { tables := intro, database_type := cfg.db_type }
      let c := Datai.Redis.cache_schema rst cfg.id schema 60
      (schema, c.1, 1, cs.2)

end Datai.SqlTools

namespace Datai.Supervisor

/-- Opening and closing brace characters (ASCII 123 and 125). -/
def braceL : Char := Char.ofNat 123

/-- Closing brace character. -/
def braceR : Char := Char.ofNat 125

/-- Character class of the regex body: anything but a brace. -/
def nonBrace (c : Char) : Bool := c ≠ braceL && c ≠ braceR

/-- Leftmost match of the brace-delimited JSON span regex used by
`SupervisorAgent._parse_decision` (an opening brace, a run free of
braces, a closing brace); at a position where no match starts the
engine advances one character. -/
def jsonSpanFrom : List Char → Option (List Char)
  | [] => none
  | c :: cs =>
      if c = braceL then
        match cs.dropWhile nonBrace with
        | r :: _ =>
            if r = braceR then some (braceL :: cs.takeWhile nonBrace ++ [braceR])
            else jsonSpanFrom cs
        | [] => jsonSpanFrom cs
      else jsonSpanFrom cs

/-- A `RoutingDecision` dictionary. Confidence is kept in hundredths
(0.5 of the source is 50 here) to stay off floating point. -/
structure Decision where
  action : String
  reasoning : String
  confidence : Nat
  method : Option String
deriving DecidableEq

/-- Keyword fallback of `SupervisorAgent._parse_decision` when no JSON
decision could be extracted. -/
def kwFallback (text : String) : Decision :=
  let tl := Datai.lowerL text.toList
  if Datai.containsSub "sql".toList tl then
    { action := "sql", reasoning := "Parsed from text (JSON failed)",
      confidence := 60, method := none }
  else if Datai.containsSub "dashboard".toList tl then
    { action := "dashboard", reasoning := "Parsed from text (JSON failed)",
      confidence := 60, method := none }
  else
    { action := "respond", reasoning := "Parsed from text (JSON failed)",
      confidence := 60, method := none }

/-- Model of `SupervisorAgent._parse_decision`: extract the first
brace-delimited span and hand it to the JSON parser (the `jsonParse`
oracle, standing for `json.loads`); on no span or a parse failure fall
back to keyword presence. -/
def parse_decision (jsonParse : String → Option Decision) (text : String) : Decision :=
  match jsonSpanFrom text.toList with
  | some span =>
      match jsonParse (String.mk span) with
      | some d => d
      | none => kwFallback text
  | none => kwFallback text

/-- Model of `SupervisorAgent._ai_route`: on a successful Language
Service call parse the decision and mark it `ai`; on any exception fall
back to the safest action, marked `fallback`. -/
def ai_route (jsonParse : String → Option Decision)
    (llm : Except String String) : Decision :=
  match llm with
  | .ok text => { parse_decision jsonParse text with method := some "ai" }
  | .error e =>
      { action := "respond", reasoning := "AI routing error: " ++ e,
        confidence := 50, method := some "fallback" }

/-- Model of `SupervisorAgent._get_cache_key`: lowercase, strip, first
50 characters, joined with the database flag. The md5 hexdigest of the
source is modelled by the pre-hash key itself (an injective
stand-in). -/
def cache_key (query : String) (has_database : Bool) : String :=
  String.mk ((Datai.pyStrip (Datai.lowerL query.toList)).take 50) ++ ":" ++
    (if has_database then "True" else "False")

/-- String-keyed dictionary lookup. -/
def getKeyS {V : Type} (k : String) (m : List (String × V)) : Option V :=
  (m.find? (fun p => p.1 = k)).map Prod.snd

/-- String-keyed dictionary update. -/
def setKeyS {V : Type} (k : String) (v : V) (m : List (String × V)) :
    List (String × V) :=
  (k, v) :: m.filter (fun p => p.1 ≠ k)

/-- The supervisor's in-memory decision cache. -/
structure SupState where
  decision_cache : List (String × Decision)
deriving DecidableEq

/-- Model of `SupervisorAgent.route_query`: consult the decision cache;
on a miss run `ai_route` and cache whatever it returned (fallbacks
included) before returning it. -/
def route_query (jsonParse : String → Option Decision) (st : SupState)
    (query : String) (has_database : Bool) (llm : Except String String) :
    Decision × SupState :=
  let key := cache_key query has_database
  match getKeyS key st.decision_cache with
  | some d => (d, st)
  | none =>
      let d := ai_route jsonParse llm
      (d, { decision_cache := setKeyS key d st.decision_cache })

end Datai.Supervisor

namespace Datai

/-- Lookup after update at the same key (Nat-keyed dictionaries). -/
theorem getKey_setKey {V : Type} (k : Nat) (v : V) (m : List (Nat × V)) :
    Redis.getKey k (Redis.setKey k v m) = some v := by
  simp [Redis.getKey, Redis.setKey, List.find?]

/-- A `find?` is unaffected by filtering out elements its predicate
could never accept. -/
theorem find?_filter_of_imp {α : Type} (p q : α → Bool) (m : List α)
    (h : ∀ x, p x = true → q x = true) :
    (m.filter q).find? p = m.find? p := by
  induction m with
  | nil => rfl
  | cons a t ih =>
      by_cases hq : q a = true
      · by_cases hp : p a = true
        · simp [List.filter, hq, List.find?, hp]
        · simp only [List.filter, hq, List.find?]
          simp only [Bool.not_eq_true] at hp
          simp [hp, ih]
      · simp only [Bool.not_eq_true] at hq
        have hp : p a = false := by
          by_contra hc
          simp only [Bool.not_eq_false] at hc
          rw [h a hc] at hq
          cases hq
        simp [List.filter, hq, List.find?, hp, ih]

/-- Lookup after update at a different key. -/
theorem getKey_setKey_ne {V : Type} (k k2 : Nat) (v : V) (m : List (Nat × V))
    (h : k ≠ k2) :
    Redis.getKey k (Redis.setKey k2 v m) = Redis.getKey k m := by
  simp only [Redis.getKey, Redis.setKey, List.find?]
  have hk : (decide ((k2, v).1 = k)) = false := by
    simp
    omega
  rw [hk]
  simp only []
  rw [find?_filter_of_imp]
  intro x hx
  simp only [decide_eq_true_eq] at hx
  simp
  omega

/-- Lookup after update at the same key (String-keyed dictionaries). -/
theorem getKeyS_setKeyS {V : Type} (k : String) (v : V) (m : List (String × V)) :
    Supervisor.getKeyS k (Supervisor.setKeyS k v m) = some v := by
  simp [Supervisor.getKeyS, Supervisor.setKeyS, List.find?]

end Datai

/-- C8: for every password string p, decrypting the encryption of p with
the Credential Vault returns p exactly:
`decrypt_password(encrypt_password(p)) = p`, for any cipher meeting the
Fernet contract. -/
theorem c8_vault_roundtrip (F : Datai.Vault.FernetCipher) (p : String) :
    Datai.Vault.decrypt_password F (Datai.Vault.encrypt_password F p) = p := by
  unfold Datai.Vault.decrypt_password Datai.Vault.encrypt_password
  rw [Datai.Vault.strEncode_strDecode _ (F.token_ascii _), F.dec_enc,
    Datai.Vault.strDecode_strEncode]

/-- Witness for C8 at the concrete unary cipher and a concrete
password. -/
theorem c8_vault_roundtrip_witness :
    Datai.Vault.decrypt_password Datai.Vault.unaryFernet
      (Datai.Vault.encrypt_password Datai.Vault.unaryFernet "hunter2") = "hunter2" :=
  c8_vault_roundtrip Datai.Vault.unaryFernet "hunter2"

/-- C9: calling the schema-fetch operation twice for the same target,
without forcing a refresh, performs at most one live introspection
round-trip; the second call returns the cached SchemaSnapshot with no
I/O (no introspection and no credential access) and leaves the cache
unchanged. (The in-memory cache never expires, so any two calls are
within the TTL window.) -/
theorem c9_schema_cache_single_introspection (F : Datai.Vault.FernetCipher)
    (cfg : Datai.ConnMgr.DBConfig) (ec : Bool) (intro : List Datai.ConnMgr.TableInfo)
    (rst : Datai.Redis.RedisState Datai.ConnMgr.SchemaInfo) :
    (Datai.SchemaService.get_or_load_schema F cfg ec intro rst).2.2.1 +
      (Datai.SchemaService.get_or_load_schema F cfg ec intro
        (Datai.SchemaService.get_or_load_schema F cfg ec intro rst).2.1).2.2.1 ≤ 1 ∧
    (Datai.SchemaService.get_or_load_schema F cfg ec intro
      (Datai.SchemaService.get_or_load_schema F cfg ec intro rst).2.1).2.2.1 = 0 ∧
    (Datai.SchemaService.get_or_load_schema F cfg ec intro
      (Datai.SchemaService.get_or_load_schema F cfg ec intro rst).2.1).2.2.2 = [] ∧
    (Datai.SchemaService.get_or_load_schema F cfg ec intro
      (Datai.SchemaService.get_or_load_schema F cfg ec intro rst).2.1).1 =
      (Datai.SchemaService.get_or_load_schema F cfg ec intro rst).1 ∧
    (Datai.SchemaService.get_or_load_schema F cfg ec intro
      (Datai.SchemaService.get_or_load_schema F cfg ec intro rst).2.1).2.1 =
      (Datai.SchemaService.get_or_load_schema F cfg ec intro rst).2.1 := by
  cases h : Datai.Redis.get_cached_schema rst cfg.id with
  | some s =>
      simp [Datai.SchemaService.get_or_load_schema, h]
  | none =>
      simp only [Datai.SchemaService.get_or_load_schema, h]
      have h2 := Datai.getKey_setKey cfg.id
        (Datai.ConnMgr.extract_schema F cfg ec intro).1 rst.schema_cache
      simp [Datai.Redis.get_cached_schema, Datai.Redis.cache_schema] at h2 ⊢
      simp [h2]

/-- Helper for C3: a passing validator verdict implies the dangerous
keyword check came back clean. -/
theorem validate_sql_true_no_dangerous (o : Datai.SQLValidator.SqlparseModel)
    (sql : String) (h : (Datai.SQLValidator.validate_sql o sql).1 = true) :
    (Datai.SQLValidator.contains_dangerous_keywords sql).1 = false := by
  simp only [Datai.SQLValidator.validate_sql] at h
  split_ifs at h with h1 h2 h3 h4 h5 h6
  all_goals simp_all

/-- C3: every SQL string containing a denylisted keyword as a whole
word (case-insensitively, i.e. as a whole word of its uppercased form)
is rejected by `validate_sql`, whatever the sqlparse behaviour. -/
theorem c3_denylisted_keyword_rejected (o : Datai.SQLValidator.SqlparseModel)
    (sql kw : String)
    (hmem : kw ∈ Datai.SQLValidator.DANGEROUS_KEYWORDS)
    (hword : Datai.containsWholeWord kw.toList (Datai.upperL sql.toList) = true) :
    (Datai.SQLValidator.validate_sql o sql).1 = false := by
  by_contra hc
  simp only [Bool.not_eq_false] at hc
  have hclean := validate_sql_true_no_dangerous o sql hc
  unfold Datai.SQLValidator.contains_dangerous_keywords at hclean
  simp only [Bool.not_eq_false', List.isEmpty_eq_true] at hclean
  have hmem2 : kw ∈ Datai.SQLValidator.DANGEROUS_KEYWORDS.filter
      (fun k => Datai.containsWholeWord k.toList (Datai.upperL sql.toList)) :=
    List.mem_filter.mpr ⟨hmem, hword⟩
  rw [hclean] at hmem2
  cases hmem2

/-- Arbitrary concrete sqlparse behaviour for the C3 witness. -/
def c3Oracle : Datai.SQLValidator.SqlparseModel :=
  ⟨fun _ => false, fun _ => true, fun _ => true⟩

/-- Witness for C3 at `DROP TABLE users`. -/
theorem c3_denylisted_keyword_rejected_witness :
    (Datai.SQLValidator.validate_sql c3Oracle "DROP TABLE users").1 = false :=
  c3_denylisted_keyword_rejected c3Oracle "DROP TABLE users" "DROP"
    (by decide) (by decide)

/-- The CTE query of the repository test `test_cte_query`
(single-line form). -/
def cteQuery : String :=
  "WITH sales_summary AS (SELECT region, SUM(amount) as total FROM sales GROUP BY region) SELECT * FROM sales_summary WHERE total > 1000"

/-- C4: under the sqlparse tokenization of a common-table-expression
statement — the first non-whitespace token is the `WITH` keyword of
ttype `Keyword.CTE`, which is neither a DML token nor an `Identifier`
group — `is_select_only` rejects the statement, and `validate_sql`
consequently rejects the repository's own CTE test query with the
leading-keyword reason, contradicting the claim (and the repository's
`test_cte_query`). -/
theorem c4_cte_rejected_by_is_select_only (o : Datai.SQLValidator.SqlparseModel)
    (stmt : List Datai.SQLValidator.SPToken) (tok : Datai.SQLValidator.SPToken)
    (rest : List (List Datai.SQLValidator.SPToken))
    (hfind : stmt.find? (fun t => !t.is_whitespace) = some tok)
    (htok : tok.ttypeIsDML = false)
    (hident : tok.isIdentifierGroup = false)
    (ho : o.isSelectOnly cteQuery =
      Datai.SQLValidator.is_select_only_tokens (stmt :: rest))
    (hmulti : o.hasMultipleStatements cteQuery = false) :
    Datai.SQLValidator.is_select_only_tokens (stmt :: rest) = false ∧
    Datai.SQLValidator.validate_sql o cteQuery =
      (false, some "Only SELECT queries are allowed") := by
  have hlead : Datai.SQLValidator.stmtLeadOk stmt = false := by
    simp [Datai.SQLValidator.stmtLeadOk, hfind, htok, hident]
  have hsel : Datai.SQLValidator.is_select_only_tokens (stmt :: rest) = false := by
    simp [Datai.SQLValidator.is_select_only_tokens, hlead]
  refine ⟨hsel, ?_⟩
  rw [hsel] at ho
  have hstrip : ¬ (Datai.pyStrip cteQuery.data = []) := by decide
  have hinj : (Datai.SQLValidator.check_sql_injection_patterns cteQuery).1 = false := by
    decide
  have hdang : (Datai.SQLValidator.contains_dangerous_keywords cteQuery).1 = false := by
    decide
  simp [Datai.SQLValidator.validate_sql, hstrip, hinj, hdang, hmulti, ho]

/-- The sqlparse token for `WITH` (ttype `Keyword.CTE`): not
whitespace, not DML, not an Identifier group. -/
def withCteToken : Datai.SQLValidator.SPToken :=
  { is_whitespace := false, ttypeIsDML := false, isIdentifierGroup := false,
    value := "WITH" }

/-- Concrete sqlparse behaviour for the C4 witness, agreeing with the
token-level model on the CTE query. -/
def c4Oracle : Datai.SQLValidator.SqlparseModel :=
  ⟨fun _ => false, fun _ => false, fun _ => true⟩

/-- Witness for C4 at the concrete one-statement tokenization. -/
theorem c4_cte_rejected_by_is_select_only_witness :
    Datai.SQLValidator.is_select_only_tokens [[withCteToken]] = false ∧
    Datai.SQLValidator.validate_sql c4Oracle cteQuery =
      (false, some "Only SELECT queries are allowed") :=
  c4_cte_rejected_by_is_select_only c4Oracle [withCteToken] withCteToken []
    (by decide) (by decide) (by decide) (by decide) (by decide)

/-- A JSON parser that fails on every input (the behaviour of
`json.loads` on the malformed responses at issue). -/
def noJson : String → Option Datai.Supervisor.Decision := fun _ => none

/-- C7 counterexample: on a structured-parsing failure (here: a
response with no JSON object at all) whose raw text mentions `sql`,
`route_query` returns the category `sql`, not the safest category
`respond` — refuting the claim that every parsing failure yields the
safest category. -/
theorem c7_parse_failure_keyword_fallback_returns_sql :
    (Datai.Supervisor.route_query noJson ⟨[]⟩ "show data" true
      (.ok "please use sql")).1.action = "sql" ∧
    ¬ ((Datai.Supervisor.route_query noJson ⟨[]⟩ "show data" true
      (.ok "please use sql")).1.action = "respond") := by
  decide

/-- C7 amended: on a cache miss, a Language Service failure yields the
safest category `respond` and the fallback decision is cached before
returning; a structured-parsing failure falls back to the keyword
heuristic, and only when that heuristic finds neither `sql` nor
`dashboard` does it yield `respond` — in every case the decision is
cached before returning. -/
theorem c7_fallback_respond_and_cached
    (jsonParse : String → Option Datai.Supervisor.Decision)
    (st : Datai.Supervisor.SupState) (q : String) (hasDb : Bool)
    (hmiss : Datai.Supervisor.getKeyS (Datai.Supervisor.cache_key q hasDb)
      st.decision_cache = none) :
    (∀ e : String,
      (Datai.Supervisor.route_query jsonParse st q hasDb (.error e)).1.action =
        "respond" ∧
      Datai.Supervisor.getKeyS (Datai.Supervisor.cache_key q hasDb)
        (Datai.Supervisor.route_query jsonParse st q hasDb (.error e)).2.decision_cache =
        some (Datai.Supervisor.route_query jsonParse st q hasDb (.error e)).1) ∧
    (∀ t : String,
      (∀ s, jsonParse s = none) →
      Datai.containsSub "sql".toList (Datai.lowerL t.toList) = false →
      Datai.containsSub "dashboard".toList (Datai.lowerL t.toList) = false →
      (Datai.Supervisor.route_query jsonParse st q hasDb (.ok t)).1.action =
        "respond" ∧
      Datai.Supervisor.getKeyS (Datai.Supervisor.cache_key q hasDb)
        (Datai.Supervisor.route_query jsonParse st q hasDb (.ok t)).2.decision_cache =
        some (Datai.Supervisor.route_query jsonParse st q hasDb (.ok t)).1) := by
  constructor
  · intro e
    constructor
    · simp [Datai.Supervisor.route_query, hmiss, Datai.Supervisor.ai_route]
    · simp [Datai.Supervisor.route_query, hmiss, Datai.Supervisor.ai_route,
        Datai.getKeyS_setKeyS]
  · intro t hnone hsql hdash
    have hsql2 : Datai.containsSub ['s', 'q', 'l'] (Datai.lowerL t.data) = false := hsql
    have hdash2 : Datai.containsSub ['d', 'a', 's', 'h', 'b', 'o', 'a', 'r', 'd']
        (Datai.lowerL t.data) = false := hdash
    have hparse : Datai.Supervisor.parse_decision jsonParse t =
        Datai.Supervisor.kwFallback t := by
      unfold Datai.Supervisor.parse_decision
      cases hspan : Datai.Supervisor.jsonSpanFrom t.toList with
      | none => rfl
      | some span => simp [hnone]
    constructor
    · simp [Datai.Supervisor.route_query, hmiss, Datai.Supervisor.ai_route, hparse,
        Datai.Supervisor.kwFallback, hsql2, hdash2]
    · simp [Datai.Supervisor.route_query, hmiss, Datai.Supervisor.ai_route,
        Datai.getKeyS_setKeyS]

/-- Witness for the amended C7 at an empty cache, a failing Language
Service call, and a keyword-free unparsable response. -/
theorem c7_fallback_respond_and_cached_witness :
    (Datai.Supervisor.route_query noJson ⟨[]⟩ "hello" false
      (.error "api down")).1.action = "respond" ∧
    (Datai.Supervisor.route_query noJson ⟨[]⟩ "hello" false
      (.ok "nothing to see")).1.action = "respond" :=
  ⟨((c7_fallback_respond_and_cached noJson ⟨[]⟩ "hello" false (by decide)).1
      "api down").1,
   ((c7_fallback_respond_and_cached noJson ⟨[]⟩ "hello" false (by decide)).2
      "nothing to see" (fun _ => rfl) (by decide) (by decide)).1⟩

/-- C2: for every TargetDatabase, decryption of the stored password
happens only inside the Connection Manager's connection-build step, and
the decrypted plaintext never reaches the SchemaSnapshot: every
credential event of the schema paths carries the
`build_connection_url` site; a cache hit (modelled by fetching right
after caching) decrypts nothing at all; and the snapshot and the
tools-side schema are unchanged under any change of the stored
password, so no part of them can carry it. -/
theorem c2_password_confined_to_connection_build (F : Datai.Vault.FernetCipher)
    (cfg : Datai.ConnMgr.DBConfig) (ec : Bool)
    (intro : List Datai.ConnMgr.TableInfo)
    (introA : List Datai.SqlTools.AgentTable)
    (rstS : Datai.Redis.RedisState Datai.ConnMgr.SchemaInfo)
    (rstA : Datai.Redis.RedisState Datai.SqlTools.AgentSchema)
    (s : Datai.ConnMgr.SchemaInfo) (p1 p2 : String) :
    ((Datai.ConnMgr.extract_schema F cfg ec intro).2.all
      (fun e => e.site = Datai.ConnMgr.buildSite)) ∧
    ((Datai.SchemaService.get_or_load_schema F cfg ec intro rstS).2.2.2.all
      (fun e => e.site = Datai.ConnMgr.buildSite)) ∧
    ((Datai.SqlTools.get_database_schema F cfg introA rstA).2.2.2.all
      (fun e => e.site = Datai.ConnMgr.buildSite)) ∧
    ((Datai.SchemaService.get_or_load_schema F cfg ec intro
      (Datai.Redis.cache_schema rstS cfg.id s 60).1).2.2.2 = []) ∧
    ((Datai.ConnMgr.extract_schema F { cfg with encrypted_password := p1 } ec intro).1 =
     (Datai.ConnMgr.extract_schema F { cfg with encrypted_password := p2 } ec intro).1) ∧
    ((Datai.SqlTools.get_database_schema F { cfg with encrypted_password := p1 }
        introA rstA).1 =
     (Datai.SqlTools.get_database_schema F { cfg with encrypted_password := p2 }
        introA rstA).1) := by
  refine ⟨?_, ?_, ?_, ?_, ?_, ?_⟩
  · simp [Datai.ConnMgr.extract_schema, Datai.ConnMgr.get_engine_events,
      Datai.ConnMgr.build_connection_url]
    split_ifs <;> simp [Datai.ConnMgr.buildSite]
  · cases h : Datai.Redis.get_cached_schema rstS cfg.id with
    | some c => simp [Datai.SchemaService.get_or_load_schema, h]
    | none =>
        simp only [Datai.SchemaService.get_or_load_schema, h]
        simp [Datai.ConnMgr.extract_schema, Datai.ConnMgr.get_engine_events,
          Datai.ConnMgr.build_connection_url]
        split_ifs <;> simp [Datai.ConnMgr.buildSite]
  · cases h : Datai.Redis.get_cached_schema rstA cfg.id with
    | some c => simp [Datai.SqlTools.get_database_schema, h]
    | none =>
        simp only [Datai.SqlTools.get_database_schema, h]
        simp [Datai.ConnMgr.get_connection_string,
          Datai.ConnMgr.build_connection_url]
        split_ifs <;> simp [Datai.ConnMgr.buildSite]
  · have h := Datai.getKey_setKey cfg.id s rstS.schema_cache
    simp [Datai.SchemaService.get_or_load_schema, Datai.Redis.get_cached_schema,
      Datai.Redis.cache_schema, h]
  · simp [Datai.ConnMgr.extract_schema]
  · cases h : Datai.Redis.get_cached_schema rstA cfg.id with
    | some c => simp [Datai.SqlTools.get_database_schema, h]
    | none => simp [Datai.SqlTools.get_database_schema, h]

/-- C10: once a schema is cached for a connection id it stays for the
process lifetime: the `ttl_minutes` argument of `cache_schema` has no
effect on the result at all; no core operation on the shared in-memory
state removes or changes an existing schema entry; and any later fetch
for that id returns the cached value with no introspection, no state
change and no credential access. -/
theorem c10_schema_cache_never_evicted :
    (∀ (V : Type) (st : Datai.Redis.RedisState V) (id : Nat) (sch : V) (t1 t2 : Nat),
      Datai.Redis.cache_schema st id sch t1 = Datai.Redis.cache_schema st id sch t2) ∧
    (∀ (op : Datai.SchemaService.CoreOp)
       (st : Datai.Redis.RedisState Datai.ConnMgr.SchemaInfo)
       (id : Nat) (s : Datai.ConnMgr.SchemaInfo),
      Datai.Redis.get_cached_schema st id = some s →
      Datai.Redis.get_cached_schema (Datai.SchemaService.applyOp op st) id = some s) ∧
    (∀ (F : Datai.Vault.FernetCipher) (cfg : Datai.ConnMgr.DBConfig) (ec : Bool)
       (intro : List Datai.ConnMgr.TableInfo)
       (st : Datai.Redis.RedisState Datai.ConnMgr.SchemaInfo)
       (s : Datai.ConnMgr.SchemaInfo),
      Datai.Redis.get_cached_schema st cfg.id = some s →
      Datai.SchemaService.get_or_load_schema F cfg ec intro st = (s, st, 0, [])) := by
  refine ⟨?_, ?_, ?_⟩
  · intro V st id sch t1 t2
    rfl
  · intro op st id s h
    cases op with
    | setState sid v => simpa [Datai.SchemaService.applyOp, Datai.Redis.set_state,
        Datai.Redis.get_cached_schema] using h
    | deleteState sid => simpa [Datai.SchemaService.applyOp, Datai.Redis.delete_state,
        Datai.Redis.get_cached_schema] using h
    | addMessage sid m => simpa [Datai.SchemaService.applyOp,
        Datai.Redis.add_conversation_message, Datai.Redis.get_cached_schema] using h
    | getOrLoad F cfg ec intro =>
        cases hl : Datai.Redis.get_cached_schema st cfg.id with
        | some c =>
            simpa [Datai.SchemaService.applyOp, Datai.SchemaService.get_or_load_schema,
              hl] using h
        | none =>
            by_cases hid : id = cfg.id
            · rw [hid] at h
              rw [h] at hl
              cases hl
            · simp only [Datai.SchemaService.applyOp,
                Datai.SchemaService.get_or_load_schema, hl]
              simp only [Datai.Redis.get_cached_schema, Datai.Redis.cache_schema] at h ⊢
              rw [Datai.getKey_setKey_ne _ _ _ _ hid]
              exact h
  · intro F cfg ec intro st s h
    simp [Datai.SchemaService.get_or_load_schema, h]

/-- A small concrete snapshot for the C10 witness. -/
def sch0 : Datai.ConnMgr.SchemaInfo :=
  { database_name := "shop", database_type := "postgresql", tables := [] }

/-- A concrete Redis state holding `sch0` under id 5. -/
def rst0 : Datai.Redis.RedisState Datai.ConnMgr.SchemaInfo :=
  { schema_cache := [(5, sch0)], state_store := [], conversations := [] }

/-- A concrete connection profile with id 5. -/
def cfg5 : Datai.ConnMgr.DBConfig :=
  { id := 5, db_type := "postgresql", host := "db.example.com", port := 5432,
    database_name := "shop", username := "reader",
    encrypted_password := "gAAAAA", schemaSpace := some "public" }

/-- Witness for C10 at a concrete cached entry, a state-store write and
a fetch. -/
theorem c10_schema_cache_never_evicted_witness :
    Datai.Redis.get_cached_schema
      (Datai.SchemaService.applyOp (.setState "sess" "v") rst0) 5 = some sch0 ∧
    Datai.SchemaService.get_or_load_schema Datai.Vault.unaryFernet cfg5 false [] rst0 =
      (sch0, rst0, 0, []) :=
  ⟨(c10_schema_cache_never_evicted.2.1 (.setState "sess" "v") rst0 5 sch0 (by decide)),
   (c10_schema_cache_never_evicted.2.2 Datai.Vault.unaryFernet cfg5 false [] rst0 sch0
     (by decide))⟩

/-- The fetch loop never exceeds the row cap once the accumulator is
below it. -/
theorem fetchRows_length_le (limit : Nat) (cols : List String) :
    ∀ (rows : List (List Datai.SqlTools.Val))
      (acc : List (List (String × Datai.SqlTools.Val))),
      acc.length < limit →
      (Datai.SqlTools.fetchRows limit cols rows acc).length ≤ limit := by
  intro rows
  induction rows with
  | nil =>
      intro acc hacc
      simp [Datai.SqlTools.fetchRows]
      omega
  | cons r rs ih =>
      intro acc hacc
      simp only [Datai.SqlTools.fetchRows, List.length_cons]
      by_cases hb : limit ≤ acc.length + 1
      · simp only [if_pos hb, List.length_reverse, List.length_cons]
        omega
      · simp only [if_neg hb]
        exact ih (Datai.SqlTools.rowDict cols r :: acc) (by simp; omega)

/-- C6 counterexample input: a driver handing back 10,001 rows for a
safe query. -/
def bigDriver : String → Except String Datai.SqlTools.DriverResult :=
  fun _ => .ok { cols := ["x"],
                 rows := List.replicate 10001 [Datai.SqlTools.Val.intV 0],
                 elapsed := 7 }

/-- C6 counterexample: `SQLTools.execute_sql_query`, an EXECUTE-stage
path named by the claim, applies no row cap at all — on a driver result
of 10,001 rows it returns all 10,001, exceeding the configured default
cap of 10,000 (and its payload carries no column list). -/
theorem c6_agent_tool_fetch_uncapped :
    (Datai.AgentSqlTools.execute_sql_query bigDriver "SELECT x FROM t").success = true ∧
    (Datai.AgentSqlTools.execute_sql_query bigDriver "SELECT x FROM t").row_count = 10001 ∧
    ¬ ((Datai.AgentSqlTools.execute_sql_query bigDriver "SELECT x FROM t").row_count
        ≤ 10000) := by
  have hsafe : Datai.AgentSqlTools.is_safe_sql "SELECT x FROM t" = true := by decide
  simp only [Datai.AgentSqlTools.execute_sql_query, hsafe, Bool.not_true,
    Bool.false_eq_true, if_false, bigDriver, Datai.AgentSqlTools.fetchAllRows,
    List.length_map, List.length_replicate]
  refine ⟨trivial, trivial, by omega⟩

/-- C6 amended: the dedicated `execute_query` tool of the pipeline caps
the returned rows at the configured `SQL_ROW_LIMIT` (default 10,000)
and returns the ordered column list, the recorded row count and the
recorded execution latency; the `SQLTools.execute_sql_query` variant
returns every fetched row uncapped and carries no column list (see the
counterexample). -/
theorem c6_execute_query_row_cap (limit : Nat) (hl : 1 ≤ limit)
    (driver : String → Except String Datai.SqlTools.DriverResult)
    (q : String) (dr : Datai.SqlTools.DriverResult)
    (hq : driver q = .ok dr) :
    ∃ out, Datai.SqlTools.execute_query limit driver q = .ok out ∧
      out.data.length ≤ limit ∧
      out.metadata.row_count = out.data.length ∧
      out.metadata.columns = dr.cols ∧
      out.metadata.column_count = dr.cols.length ∧
      out.metadata.execution_time = dr.elapsed := by
  refine ⟨{ data := Datai.SqlTools.fetchRows limit dr.cols dr.rows [],
            metadata :=
              { row_count := (Datai.SqlTools.fetchRows limit dr.cols dr.rows []).length,
                column_count := dr.cols.length, columns := dr.cols,
                execution_time := dr.elapsed, query := q } },
    ?_, ?_, rfl, rfl, rfl, rfl⟩
  · simp [Datai.SqlTools.execute_query, hq]
  · exact fetchRows_length_le limit dr.cols dr.rows [] (by simp; omega)

/-- A small concrete driver for the C6 witness. -/
def smallDriver : String → Except String Datai.SqlTools.DriverResult :=
  fun _ => .ok { cols := ["a"], rows := [[Datai.SqlTools.Val.intV 1],
    [Datai.SqlTools.Val.intV 2]], elapsed := 3 }

/-- Witness for the amended C6 at the default cap of 10,000 and a
two-row driver result. -/
theorem c6_execute_query_row_cap_witness :
    ∃ out, Datai.SqlTools.execute_query 10000 smallDriver "SELECT a FROM t" = .ok out ∧
      out.data.length ≤ 10000 ∧
      out.metadata.row_count = out.data.length ∧
      out.metadata.columns = ["a"] ∧
      out.metadata.column_count = (["a"] : List String).length ∧
      out.metadata.execution_time = 3 :=
  c6_execute_query_row_cap 10000 (by decide) smallDriver "SELECT a FROM t"
    { cols := ["a"], rows := [[Datai.SqlTools.Val.intV 1],
      [Datai.SqlTools.Val.intV 2]], elapsed := 3 } rfl

/-- Initial pipeline state shared by the pipeline scenarios: a fresh
request with a connected database and no retries yet. -/
def pipeStart : Datai.Pipeline.PState :=
  { user_query := "how many rows", database_id := some 1, intent := "sql",
    sql_query := none, query_results := none, query_metadata := none,
    error := none, retry_count := 0, agent_used := none }

/-- Driver result for the repaired query of the C1 scenario. -/
def okResult : Datai.SqlTools.DriverResult :=
  { cols := ["b"], rows := [[.intV 5]], elapsed := 12 }

/-- C1 scenario services: the first generation is invalid and its
repair still invalid (consuming round one); the second generation
passes validation but fails at the driver; the driver accepts only the
repaired `SELECT b FROM t`. -/
def c1Services : Datai.Pipeline.Services :=
  { maxRetries := 2, rowLimit := 10000,
    gen := fun n _ => if n = 0 then "DELETE FROM t" else "SELECT a FROM t",
    fix := fun n _ _ => if n = 0 then "INSERT INTO t VALUES (1)"
                        else "SELECT b FROM t",
    driver := fun q => if q = "SELECT b FROM t" then .ok okResult
                       else .error "column a does not exist" }

/-- The event trace of the C1 scenario run. -/
def c1Trace : List Datai.Pipeline.Ev :=
  [.generated "DELETE FROM t",
   .validated "DELETE FROM t" false,
   .fixed "INSERT INTO t VALUES (1)",
   .validated "INSERT INTO t VALUES (1)" false,
   .generated "SELECT a FROM t",
   .validated "SELECT a FROM t" true,
   .executed "SELECT a FROM t",
   .fixed "SELECT b FROM t",
   .executed "SELECT b FROM t"]

/-- C1 counterexample: in the execution-error repair path of
`SQLAgent.process`, the repaired query `SELECT b FROM t` is executed
(successfully — the run ends marked `sql`) without ever entering
validation: the trace holds its execution but no validation event for
it, so execution proceeded on a query that had not most recently passed
VALIDATE. -/
theorem c1_repair_executes_unvalidated_query :
    ((Datai.Pipeline.runSqlLoop c1Services 3 pipeStart 0 0 []).map
        (fun r => (r.1.agent_used, r.1.sql_query, r.2.1)) =
      some (some "sql", some "SELECT b FROM t", c1Trace)) ∧
    Datai.Pipeline.Ev.executed "SELECT b FROM t" ∈ c1Trace ∧
    (∀ ok : Bool, Datai.Pipeline.Ev.validated "SELECT b FROM t" ok ∉ c1Trace) ∧
    Datai.Pipeline.execGuarded c1Trace = false := by
  decide

/-- Trace of the execution phase when the driver succeeds: exactly one
execution attempt of the handed query is appended. -/
theorem execPhase_trace_ok (svc : Datai.Pipeline.Services)
    (st : Datai.Pipeline.PState) (sql : String) (tr : List Datai.Pipeline.Ev)
    (g f : Nat) (dr : Datai.SqlTools.DriverResult)
    (hdr : svc.driver sql = .ok dr) :
    (Datai.Pipeline.execPhase svc st sql tr g f).trace =
      tr ++ [Datai.Pipeline.Ev.executed sql] := by
  unfold Datai.Pipeline.execPhase Datai.SqlTools.execute_query
  rw [hdr]

/-- C1 amended: in `SQLAgent.process`, whenever execution itself raises
no error (so the exception-handler repair path is not taken), every
execution attempt is of the exact query whose most recent validation
verdict passed: the validation-failure repair path always re-validates
its repaired query before executing it. (The counterexample shows the
exception-handler path breaks this for execution errors.) -/
theorem c1_exec_only_on_validated_query (svc : Datai.Pipeline.Services)
    (st : Datai.Pipeline.PState) (g f : Nat)
    (hdrv : ∀ q, (svc.driver q).isOk = true) :
    Datai.Pipeline.execGuarded (Datai.Pipeline.process svc st g f).trace = true := by
  have hexec : ∀ q2, ∃ dr, svc.driver q2 = .ok dr := by
    intro q2
    cases h : svc.driver q2 with
    | ok dr => exact ⟨dr, rfl⟩
    | error e =>
        have := hdrv q2
        rw [h] at this
        cases this
  unfold Datai.Pipeline.process
  cases hdb : st.database_id with
  | none => rfl
  | some d =>
      simp only
      by_cases hv0 : (Datai.SqlTools.validate_query (svc.gen g st.user_query)).is_valid
      · obtain ⟨dr0, hdr0⟩ := hexec (svc.gen g st.user_query)
        simp only [hv0, if_true]
        rw [Datai.Pipeline.execGuarded,
          execPhase_trace_ok svc st _ _ _ _ dr0 hdr0]
        simp [Datai.Pipeline.execGuardedB]
      · simp only [Bool.not_eq_true] at hv0
        simp only [hv0, Bool.false_eq_true, if_false]
        by_cases hrc : st.retry_count < svc.maxRetries
        · simp only [if_pos hrc]
          by_cases hv1 : (Datai.SqlTools.validate_query (svc.fix f
              (svc.gen g st.user_query) ("SQL query validation failed: " ++
                String.intercalate ", " (Datai.SqlTools.validate_query
                  (svc.gen g st.user_query)).issues))).is_valid
          · obtain ⟨dr1, hdr1⟩ := hexec (svc.fix f (svc.gen g st.user_query)
              ("SQL query validation failed: " ++ String.intercalate ", "
                (Datai.SqlTools.validate_query (svc.gen g st.user_query)).issues))
            simp only [hv1, if_true]
            rw [Datai.Pipeline.execGuarded,
              execPhase_trace_ok svc st _ _ _ _ dr1 hdr1]
            simp [Datai.Pipeline.execGuardedB, hv1]
          · simp only [Bool.not_eq_true] at hv1
            simp only [hv1, Bool.false_eq_true, if_false]
            simp [Datai.Pipeline.execGuarded, Datai.Pipeline.execGuardedB]
        · simp only [if_neg hrc]
          simp [Datai.Pipeline.execGuarded, Datai.Pipeline.execGuardedB]

/-- Services whose driver always succeeds, for the C1 witness. -/
def okDriverServices : Datai.Pipeline.Services :=
  { maxRetries := 2, rowLimit := 10000,
    gen := fun _ _ => "SELECT a FROM t",
    fix := fun _ _ _ => "SELECT a FROM t",
    driver := fun _ => .ok okResult }

/-- Witness for the amended C1 at an always-succeeding driver. -/
theorem c1_exec_only_on_validated_query_witness :
    Datai.Pipeline.execGuarded
      (Datai.Pipeline.process okDriverServices pipeStart 0 0).trace = true :=
  c1_exec_only_on_validated_query okDriverServices pipeStart 0 0 (fun _ => rfl)

/-- Language Service stub that always produces the same invalid query,
with the retry budget at its default of 2. -/
def invalidStubServices : Datai.Pipeline.Services :=
  { maxRetries := 2, rowLimit := 10000,
    gen := fun _ _ => "UPDATE t SET x = 1",
    fix := fun _ _ _ => "UPDATE t SET x = 1",
    driver := fun _ => .error "boom" }

/-- C5 counterexample: with the default budget of 2 and an
always-invalid Language Service stub, the pipeline terminates FAILED
having made 2 generation calls and 2 repair calls — so neither the
generation count (2) nor the total count of query-producing calls (4)
equals the claimed `retry budget + 1 = 3`. -/
theorem c5_retry_budget_attempt_count_mismatch :
    ((Datai.Pipeline.runSqlLoop invalidStubServices 3 pipeStart 0 0 []).map
        (fun r => (r.1.agent_used, r.1.error.isSome, r.2.2.1, r.2.2.2)) =
      some (some "sql_failed", true, 2, 2)) ∧
    ((Datai.Pipeline.runSqlLoop invalidStubServices 2 pipeStart 0 0 []).isSome = true) ∧
    (2 : Nat) ≠ 2 + 1 ∧ (2 + 2 : Nat) ≠ 2 + 1 := by
  decide

/-- The validation-failure error message built by `SQLAgent.process`. -/
def valFailMsg (q : String) : String :=
  "SQL query validation failed: " ++
    String.intercalate ", " (Datai.SqlTools.validate_query q).issues

/-- One sql-node round under an always-invalid Language Service, with
budget left after this round: generate, validate (fail), repair,
re-validate (fail), store the error and the repaired query, increment
the retry counter, and route back to the sql node. -/
theorem node_always_invalid_step (svc : Datai.Pipeline.Services)
    (st : Datai.Pipeline.PState) (g f d : Nat)
    (hdb : st.database_id = some d)
    (hrc : st.retry_count < svc.maxRetries)
    (hcont : st.retry_count + 1 < svc.maxRetries)
    (hgen : ∀ n q, (Datai.SqlTools.validate_query (svc.gen n q)).is_valid = false)
    (hfix : ∀ n q e, (Datai.SqlTools.validate_query (svc.fix n q e)).is_valid = false)
    (hfne : ∀ n q e, svc.fix n q e ≠ "") :
    Datai.Pipeline.sql_agent_node svc st g f =
      { st := { st with
            sql_query := some (svc.fix f (svc.gen g st.user_query)
              (valFailMsg (svc.gen g st.user_query))),
            query_results := none, query_metadata := none,
            error := some (valFailMsg (svc.gen g st.user_query)),
            retry_count := st.retry_count + 1 },
        next := .sql,
        trace := [.generated (svc.gen g st.user_query),
                  .validated (svc.gen g st.user_query) false,
                  .fixed (svc.fix f (svc.gen g st.user_query)
                    (valFailMsg (svc.gen g st.user_query))),
                  .validated (svc.fix f (svc.gen g st.user_query)
                    (valFailMsg (svc.gen g st.user_query))) false],
        genCalls := g + 1, fixCalls := f + 1 } := by
  unfold Datai.Pipeline.sql_agent_node Datai.Pipeline.process
  rw [hdb]
  simp only [hgen, hfix, Bool.false_eq_true, if_false, if_pos hrc]
  simp [Datai.Pipeline.truthyStr, hfne, hcont, valFailMsg]

theorem node_always_invalid_stop (svc : Datai.Pipeline.Services)
    (st : Datai.Pipeline.PState) (g f d : Nat)
    (hdb : st.database_id = some d)
    (hrc : st.retry_count < svc.maxRetries)
    (hstop : ¬ (st.retry_count + 1 < svc.maxRetries))
    (hgen : ∀ n q, (Datai.SqlTools.validate_query (svc.gen n q)).is_valid = false)
    (hfix : ∀ n q e, (Datai.SqlTools.validate_query (svc.fix n q e)).is_valid = false)
    (hfne : ∀ n q e, svc.fix n q e ≠ "") :
    Datai.Pipeline.sql_agent_node svc st g f =
      { st := { st with
            sql_query := some (svc.fix f (svc.gen g st.user_query)
              (valFailMsg (svc.gen g st.user_query))),
            query_results := none, query_metadata := none,
            error := some (valFailMsg (svc.gen g st.user_query)),
            retry_count := st.retry_count + 1,
            agent_used := some "sql_failed" },
        next := .supervisor,
        trace := [.generated (svc.gen g st.user_query),
                  .validated (svc.gen g st.user_query) false,
                  .fixed (svc.fix f (svc.gen g st.user_query)
                    (valFailMsg (svc.gen g st.user_query))),
                  .validated (svc.fix f (svc.gen g st.user_query)
                    (valFailMsg (svc.gen g st.user_query))) false],
        genCalls := g + 1, fixCalls := f + 1 } := by
  unfold Datai.Pipeline.sql_agent_node Datai.Pipeline.process
  rw [hdb]
  simp only [hgen, hfix, Bool.false_eq_true, if_false, if_pos hrc]
  simp [Datai.Pipeline.truthyStr, hfne, hstop, valFailMsg]

theorem loop_always_invalid (svc : Datai.Pipeline.Services)
    (hgen : ∀ n q, (Datai.SqlTools.validate_query (svc.gen n q)).is_valid = false)
    (hfix : ∀ n q e, (Datai.SqlTools.validate_query (svc.fix n q e)).is_valid = false)
    (hfne : ∀ n q e, svc.fix n q e ≠ "") :
    ∀ (k : Nat) (st : Datai.Pipeline.PState) (g f : Nat)
      (tr : List Datai.Pipeline.Ev) (d : Nat),
      st.database_id = some d →
      st.retry_count + k = svc.maxRetries →
      1 ≤ k →
      ∃ final tr2,
        Datai.Pipeline.runSqlLoop svc k st g f tr = some (final, tr2, g + k, f + k) ∧
        final.agent_used = some "sql_failed" ∧
        final.error = some (valFailMsg (svc.gen (g + k - 1) st.user_query)) ∧
        final.user_query = st.user_query := by
  intro k
  induction k with
  | zero => intro st g f tr d hdb hsum hk; omega
  | succ k ih =>
      intro st g f tr d hdb hsum hk
      have hrc : st.retry_count < svc.maxRetries := by omega
      by_cases hcont : st.retry_count + 1 < svc.maxRetries
      · have hk1 : 1 ≤ k := by omega
        rw [Datai.Pipeline.runSqlLoop,
          node_always_invalid_step svc st g f d hdb hrc hcont hgen hfix hfne]
        simp only [if_pos rfl]
        obtain ⟨final, tr2, he, hfail, herr, hq⟩ := ih
          { st with
            sql_query := some (svc.fix f (svc.gen g st.user_query)
              (valFailMsg (svc.gen g st.user_query))),
            query_results := none, query_metadata := none,
            error := some (valFailMsg (svc.gen g st.user_query)),
            retry_count := st.retry_count + 1 }
          (g + 1) (f + 1)
          (tr ++ [.generated (svc.gen g st.user_query),
                  .validated (svc.gen g st.user_query) false,
                  .fixed (svc.fix f (svc.gen g st.user_query)
                    (valFailMsg (svc.gen g st.user_query))),
                  .validated (svc.fix f (svc.gen g st.user_query)
                    (valFailMsg (svc.gen g st.user_query))) false])
          d hdb (by show st.retry_count + 1 + k = svc.maxRetries; omega) hk1
        have e1 : g + 1 + k = g + (k + 1) := by omega
        have e2 : f + 1 + k = f + (k + 1) := by omega
        have e3 : g + 1 + k - 1 = g + (k + 1) - 1 := by omega
        rw [e1, e2] at he
        rw [e3] at herr
        exact ⟨final, tr2, he, hfail, herr, hq⟩
      · have hk0 : k = 0 := by omega
        subst hk0
        rw [Datai.Pipeline.runSqlLoop,
          node_always_invalid_stop svc st g f d hdb hrc hcont hgen hfix hfne]
        exact ⟨{ st with
            sql_query := some (svc.fix f (svc.gen g st.user_query)
              (valFailMsg (svc.gen g st.user_query))),
            query_results := none, query_metadata := none,
            error := some (valFailMsg (svc.gen g st.user_query)),
            retry_count := st.retry_count + 1,
            agent_used := some "sql_failed" },
          tr ++ [.generated (svc.gen g st.user_query),
                 .validated (svc.gen g st.user_query) false,
                 .fixed (svc.fix f (svc.gen g st.user_query)
                   (valFailMsg (svc.gen g st.user_query))),
                 .validated (svc.fix f (svc.gen g st.user_query)
                   (valFailMsg (svc.gen g st.user_query))) false],
          by simp, rfl, rfl, rfl⟩

/-- C5 amended: with a Language Service stub whose generations and
repairs always fail validation, the pipeline terminates in the FAILED
state (`sql_failed`) after exactly `retry budget` sql-node rounds —
fuel equal to the budget suffices — having made exactly `budget`
generation calls plus `budget` repair calls (so `2 × budget`
query-producing Language Service calls, 4 by the default budget of 2,
not `budget + 1`), with the last validation error preserved in the
final state. -/
theorem c5_pipeline_fails_after_budget_rounds (svc : Datai.Pipeline.Services)
    (st : Datai.Pipeline.PState) (d : Nat)
    (hb : 1 ≤ svc.maxRetries)
    (hgen : ∀ n q, (Datai.SqlTools.validate_query (svc.gen n q)).is_valid = false)
    (hfix : ∀ n q e, (Datai.SqlTools.validate_query (svc.fix n q e)).is_valid = false)
    (hfne : ∀ n q e, svc.fix n q e ≠ "")
    (hdb : st.database_id = some d) (hrc : st.retry_count = 0) :
    ∃ final tr,
      Datai.Pipeline.runSqlLoop svc svc.maxRetries st 0 0 [] =
        some (final, tr, svc.maxRetries, svc.maxRetries) ∧
      final.agent_used = some "sql_failed" ∧
      final.error = some (valFailMsg (svc.gen (svc.maxRetries - 1) st.user_query)) := by
  obtain ⟨final, tr2, he, hfail, herr, hq⟩ :=
    loop_always_invalid svc hgen hfix hfne svc.maxRetries st 0 0 [] d hdb
      (by omega) hb
  have e1 : 0 + svc.maxRetries = svc.maxRetries := by omega
  rw [e1] at he
  have e2 : 0 + svc.maxRetries - 1 = svc.maxRetries - 1 := by omega
  rw [e2] at herr
  exact ⟨final, tr2, he, hfail, herr⟩

/-- Witness for the amended C5 at the always-invalid stub and the
default budget of 2. -/
theorem c5_pipeline_fails_after_budget_rounds_witness :
    ∃ final tr,
      Datai.Pipeline.runSqlLoop invalidStubServices 2 pipeStart 0 0 [] =
        some (final, tr, 2, 2) ∧
      final.agent_used = some "sql_failed" ∧
      final.error = some (valFailMsg "UPDATE t SET x = 1") := by
  have hv : (Datai.SqlTools.validate_query "UPDATE t SET x = 1").is_valid = false := by
    decide
  have hne : ("UPDATE t SET x = 1" : String) ≠ "" := by decide
  exact c5_pipeline_fails_after_budget_rounds invalidStubServices pipeStart 1
    (by decide) (fun _ _ => hv) (fun _ _ _ => hv) (fun _ _ _ => hne) rfl rfl
